import Mathlib

/-!
Shallow embedding of the Tradutor Inteligente IA core logic:
the `translateAndDetect` service (src/services/geminiService.ts), the two
variants of the `getTranslation` orchestrator with the language reconciler
(src/unnamed/part_001), the manual swap handler, and the 800ms debounce
timer mechanism.  Asynchronous effects are modelled by explicit state
passing; the remote collaborator's behaviour is an explicit input.
-/

namespace Tradutor

/-- The closed set of supported language codes (src/unnamed/part_002,
`type Language`, and the keys of `supportedLanguages` in part_001). -/
inductive Language where
  | en
  | pt
  | es
  | fr
  | de
  | it
  | ja
  | ru
  | zh
  | hi
  | ar
  | ko
deriving DecidableEq, Repr

/-- Display names from the `supportedLanguages` record (part_001 lines 8-21). -/
def languageName : Language → String
  | .en => "Inglês"
  | .pt => "Português (BR)"
  | .es => "Espanhol"
  | .fr => "Francês"
  | .de => "Alemão"
  | .it => "Italiano"
  | .ja => "Japonês"
  | .ru => "Russo"
  | .zh => "Chinês (Mandarim)"
  | .hi => "Hindi"
  | .ar => "Árabe"
  | .ko => "Coreano"

/-- The 12 own keys of `supportedLanguages`: maps a string to the
corresponding `Language` exactly when it is one of the supported codes.
The program's guard `lang in supportedLanguages` additionally accepts
property names inherited from `Object.prototype`; that genuine JS `in`
semantics is modelled by `isSupportedJS` below, and the two agree on
every string that is an own key. -/
def parseLang : String → Option Language
  | "en" => some .en
  | "pt" => some .pt
  | "es" => some .es
  | "fr" => some .fr
  | "de" => some .de
  | "it" => some .it
  | "ja" => some .ja
  | "ru" => some .ru
  | "zh" => some .zh
  | "hi" => some .hi
  | "ar" => some .ar
  | "ko" => some .ko
  | _ => none

/-- Result of one remote call (src/unnamed/part_002, `TranslationResponse`). -/
structure TranslationResponse where
  detectedLanguage : String
  translatedText : String
deriving DecidableEq, Repr

/-- The two fault kinds `translateAndDetect` can raise:
`API_KEY_MISSING`, and the generic failure wrapping every other fault. -/
inductive ServiceError where
  | apiKeyMissing
  | genericFailure
deriving DecidableEq, Repr

/-- Behaviour of the opaque remote collaborator for one call: an empty
(trimmed) response body, a well-formed JSON object with both string
fields, or anything else (transport error, malformed JSON, schema
violation). -/
inductive RemoteBehavior where
  | emptyResponse
  | json (resp : TranslationResponse)
  | malformed
deriving DecidableEq, Repr

/-- `translateAndDetect` (src/services/geminiService.ts lines 34-94).
With no API credential it throws `API_KEY_MISSING` before contacting the
remote.  Otherwise: an empty trimmed response body yields the predictable
`{translatedText: '', detectedLanguage: ''}` state; a well-formed JSON
object with both string fields is returned as is; everything else is
collapsed into the generic failure. -/
def translateAndDetect (apiKeyPresent : Bool) (remote : RemoteBehavior)
    (_text : String) (_targetLang : Language) (_langName : String) :
    Except ServiceError TranslationResponse :=
  if apiKeyPresent then
    match remote with
    | .emptyResponse => .ok ⟨"", ""⟩
    | .json r => .ok r
    | .malformed => .error .genericFailure
  else
    .error .apiKeyMissing

/-- The guard `!text.trim()` (part_001 lines 40 and 268): the submitted
text is empty or whitespace-only, i.e. trimming leaves nothing, i.e.
every character is whitespace. -/
def isBlank (text : String) : Bool :=
  text.toList.all Char.isWhitespace

/-- `name.charAt(0).toUpperCase() + name.slice(1)` (part_001 line 74). -/
def capitalizeFirst (s : String) : String :=
  (s.take 1).toUpper ++ s.drop 1

/-- The `Intl.DisplayNames` lookup for an unsupported detected code
(part_001 lines 69-78): `dn` models the library (`none` covers both a
thrown exception and an undefined result); a non-empty resolved name is
capitalized, otherwise the raw code is kept. -/
def resolveDetectedName (dn : String → Option String) (code : String) : String :=
  match dn code with
  | some n => if n.isEmpty then code else capitalizeFirst n
  | none => code

/-- Error text for an unsupported detected language (part_001 line 79). -/
def unsupportedMessage (name : String) : String :=
  "O idioma detectado (" ++ name ++ ") não é suportado."

/-- Error text for a missing API credential (part_001 line 89). -/
def apiKeyMissingMessage : String :=
  "A chave da API está faltando. A funcionalidade de tradução está desativada."

/-- Error text for a generic translation failure (part_001 line 103). -/
def translateFailMessage : String :=
  "Falha ao traduzir. Por favor, tente novamente."

/-- The error kind of variant 2 (`errorType`, part_001 line 258). -/
inductive ErrorType where
  | apiKey
  | translation
deriving DecidableEq, Repr

/-- The renderable error node stored by variant 1 (part_001 lines 79,
87-99, 101-111): a bare span for an unsupported detected language, a
fragment with a credential-acquisition link, or a fragment with a retry
button.  Each carries its visible message text. -/
inductive ErrorNode where
  | unsupportedSpan (msg : String)
  | apiKeyFragment (msg : String)
  | retryFragment (msg : String)
deriving DecidableEq, Repr

/-- Session state of variant 1 of the App component (part_001 lines
24-32).  `prevSourceLang` models the `previousSourceLang` ref, which the
effect at lines 34-36 keeps equal to the last committed `sourceLang`. -/
structure AppState where
  sourceLang : Language
  targetLang : Language
  inputText : String
  translatedText : String
  isLoading : Bool
  error : Option ErrorNode
  prevSourceLang : Language
deriving DecidableEq, Repr

/-- The language reconciliation in variant 1 of `getTranslation`
(part_001 lines 55-84), applied to the state after `translatedText` was
set from the response.  An empty detected code does nothing; a supported
code different from the source becomes the new source (moving the
previously-held source into the target slot when the code equals the
current target); an unsupported code sets the error node and blanks the
translated text.  The supported-set test here is the 12 own keys
(`parseLang`), on which it agrees with the program; the genuine `in`
semantics, which also accepts inherited property names, is modelled by
`reconcileDetectionJS` below. -/
def reconcileDetection (dn : String → Option String) (detectedLang : String)
    (s : AppState) : AppState :=
  if detectedLang = "" then
    s
  else
    match parseLang detectedLang with
    | some l =>
      if l ≠ s.sourceLang then
        let s1 := if l = s.targetLang then { s with targetLang := s.prevSourceLang } else s
        { s1 with sourceLang := l }
      else
        s
    | none =>
      { s with
          error := some (.unsupportedSpan
            (unsupportedMessage (resolveDetectedName dn detectedLang))),
          translatedText := "" }

/-- Result of one orchestrator invocation: the new session state, plus
whether the remote service was invoked at all. -/
structure StepResult where
  state : AppState
  invokedService : Bool
deriving DecidableEq, Repr

/-- Variant 1 of `getTranslation` (part_001 lines 39-117) as a state
transformer.  Empty or whitespace-only text short-circuits, clearing the
translated text and error without touching the service.  Otherwise the
loading flag is raised, the error cleared, and the service outcome folded
in: on success the translated text is stored and the detection
reconciled; `API_KEY_MISSING` and every other fault store their
respective error nodes; the `finally` clause lowers the loading flag. -/
def getTranslation (dn : String → Option String) (apiKeyPresent : Bool)
    (remote : RemoteBehavior) (text : String) (s : AppState) : StepResult :=
  if isBlank text then
    ⟨{ s with translatedText := "", error := none }, false⟩
  else
    let s1 : AppState := { s with isLoading := true, error := none }
    match translateAndDetect apiKeyPresent remote text s.targetLang
        (languageName s.targetLang) with
    | .ok result =>
      let s2 := { s1 with translatedText := result.translatedText }
      let s3 := reconcileDetection dn result.detectedLanguage s2
      ⟨{ s3 with isLoading := false }, true⟩
    | .error .apiKeyMissing =>
      ⟨{ s1 with error := some (.apiKeyFragment apiKeyMissingMessage),
                 isLoading := false }, true⟩
    | .error .genericFailure =>
      ⟨{ s1 with error := some (.retryFragment translateFailMessage),
                 isLoading := false }, true⟩

/-- `handleSwapLanguages`, variant 1 (part_001 lines 134-142): exchanges
the language codes and the two text buffers in one atomic update. -/
def handleSwapLanguages (s : AppState) : AppState :=
  { s with
      sourceLang := s.targetLang,
      targetLang := s.sourceLang,
      inputText := s.translatedText,
      translatedText := s.inputText }

/-- Session state of variant 2 of the App component (part_001 lines
249-261), which stores a plain message string plus an error kind instead
of a renderable node. -/
structure AppState2 where
  sourceLang : Language
  targetLang : Language
  inputText : String
  translatedText : String
  isLoading : Bool
  errorMessage : Option String
  errorType : Option ErrorType
  prevSourceLang : Language
deriving DecidableEq, Repr

/-- The language reconciliation in variant 2 of `getTranslation`
(part_001 lines 284-302). -/
def reconcileDetection2 (dn : String → Option String) (detectedLang : String)
    (s : AppState2) : AppState2 :=
  if detectedLang = "" then
    s
  else
    match parseLang detectedLang with
    | some l =>
      if l ≠ s.sourceLang then
        let s1 := if l = s.targetLang then { s with targetLang := s.prevSourceLang } else s
        { s1 with sourceLang := l }
      else
        s
    | none =>
      { s with
          errorMessage := some (unsupportedMessage (resolveDetectedName dn detectedLang)),
          errorType := some .translation,
          translatedText := "" }

/-- Result of one variant-2 orchestrator invocation. -/
structure StepResult2 where
  state : AppState2
  invokedService : Bool
deriving DecidableEq, Repr

/-- Variant 2 of `getTranslation` (part_001 lines 267-315). -/
def getTranslation2 (dn : String → Option String) (apiKeyPresent : Bool)
    (remote : RemoteBehavior) (text : String) (s : AppState2) : StepResult2 :=
  if isBlank text then
    ⟨{ s with translatedText := "", errorMessage := none, errorType := none }, false⟩
  else
    let s1 : AppState2 := { s with isLoading := true, errorMessage := none, errorType := none }
    match translateAndDetect apiKeyPresent remote text s.targetLang
        (languageName s.targetLang) with
    | .ok result =>
      let s2 := { s1 with translatedText := result.translatedText }
      let s3 := reconcileDetection2 dn result.detectedLanguage s2
      ⟨{ s3 with isLoading := false }, true⟩
    | .error .apiKeyMissing =>
      ⟨{ s1 with errorMessage := some apiKeyMissingMessage,
                 errorType := some .apiKey,
                 isLoading := false }, true⟩
    | .error .genericFailure =>
      ⟨{ s1 with errorMessage := some translateFailMessage,
                 errorType := some .translation,
                 isLoading := false }, true⟩

/-- `handleSwapLanguages`, variant 2 (part_001 lines 323-328). -/
def handleSwapLanguages2 (s : AppState2) : AppState2 :=
  { s with
      sourceLang := s.targetLang,
      targetLang := s.sourceLang,
      inputText := s.translatedText,
      translatedText := s.inputText }

/-- Visible message of a variant-1 error node. -/
def errNodeMsg : ErrorNode → String
  | .unsupportedSpan m => m
  | .apiKeyFragment m => m
  | .retryFragment m => m

/-- Classification of a variant-1 error node into variant 2's kinds: the
credential fragment renders the credential link, the other two render the
retry affordance. -/
def errNodeKind : ErrorNode → ErrorType
  | .unsupportedSpan _ => .translation
  | .apiKeyFragment _ => .apiKey
  | .retryFragment _ => .translation

/-- Abstraction from a variant-1 state to the corresponding variant-2
state: common fields are copied, the error node is projected to its
message and kind. -/
def absState (s : AppState) : AppState2 :=
  { sourceLang := s.sourceLang,
    targetLang := s.targetLang,
    inputText := s.inputText,
    translatedText := s.translatedText,
    isLoading := s.isLoading,
    errorMessage := s.error.map errNodeMsg,
    errorType := s.error.map errNodeKind,
    prevSourceLang := s.prevSourceLang }

/-- Abstraction of a variant-1 step result. -/
def absStep (r : StepResult) : StepResult2 :=
  ⟨absState r.state, r.invokedService⟩

/-- A pending debounce timer: when it fires and what text it submits
(the `debounceTimeout` ref, part_001 line 31). -/
structure Timer where
  fireAt : Nat
  text : String
deriving DecidableEq, Repr

/-- The debounce effect body (part_001 lines 119-132) for one `inputText`
change at time `now`: the pending timeout is cleared and a fresh 800ms
timeout is armed with the current text. -/
def armDebounce (now : Nat) (text : String) (pending : Option Timer) : Option Timer :=
  match pending with
  | some _ => some ⟨now + 800, text⟩
  | none => some ⟨now + 800, text⟩

/-- Runs the debounce mechanism over a time-ordered list of edits, given
the pending timer, returning the translation invocations (fire time and
submitted text).  A pending timer due at or before the next edit fires
first; the edit then re-arms the timer; at quiescence the pending timer
fires. -/
def debounceRun : Option Timer → List (Nat × String) → List (Nat × String)
  | some tm, [] => [(tm.fireAt, tm.text)]
  | none, [] => []
  | pending, (t, txt) :: rest =>
    match pending with
    | some tm =>
      if tm.fireAt ≤ t then
        (tm.fireAt, tm.text) :: debounceRun (armDebounce t txt (some tm)) rest
      else
        debounceRun (armDebounce t txt (some tm)) rest
    | none => debounceRun (armDebounce t txt none) rest

/-- Translation invocations produced by a sequence of edits starting from
no pending timer. -/
def debounceFirings (edits : List (Nat × String)) : List (Nat × String) :=
  debounceRun none edits

/-- Each edit in the list happens at or after time `t` and strictly less
than 800ms after the previous one. -/
def chainFrom (t : Nat) : List (Nat × String) → Bool
  | [] => true
  | (t2, _) :: rest => decide (t ≤ t2) && decide (t2 < t + 800) && chainFrom t2 rest

/-- A sample session state used to instantiate the theorems below:
the view-mount defaults (source pt, target en) with some input typed. -/
def sampleState : AppState :=
  { sourceLang := .pt, targetLang := .en, inputText := "Olá",
    translatedText := "", isLoading := false, error := none,
    prevSourceLang := .pt }

/-- Property names every plain object literal inherits from
`Object.prototype`, which the JS `in` operator therefore reports as
present on `supportedLanguages` even though they are not own keys. -/
def objectPrototypeKeys : List String :=
  ["constructor", "hasOwnProperty", "isPrototypeOf", "propertyIsEnumerable",
   "toLocaleString", "toString", "valueOf", "__defineGetter__",
   "__defineSetter__", "__lookupGetter__", "__lookupSetter__", "__proto__"]

/-- The type guard `lang in supportedLanguages` (part_001 lines 56 and
285) with the genuine JS `in` semantics: true for the 12 own keys and
also for every property name inherited from `Object.prototype`. -/
def isSupportedJS (lang : String) : Bool :=
  (parseLang lang).isSome || objectPrototypeKeys.contains lang

/-- Session state as the untyped JS runtime actually holds it: the
selector slots are plain strings, since the unsound `lang is Language`
guard lets `setSourceLang` receive strings outside the `Language` set. -/
structure RawState where
  sourceLang : String
  targetLang : String
  inputText : String
  translatedText : String
  isLoading : Bool
  error : Option ErrorNode
  prevSourceLang : String
deriving DecidableEq, Repr

/-- The language reconciliation of variant 1 (part_001 lines 55-84) over
the untyped runtime state, with the genuine JS `in` semantics in the
supported-language guard: a detected code that passes `isSupportedJS` and
differs from the source is written into the source slot verbatim, even
when it is an inherited property name rather than a supported code. -/
def reconcileDetectionJS (dn : String → Option String) (detectedLang : String)
    (s : RawState) : RawState :=
  if detectedLang = "" then
    s
  else if isSupportedJS detectedLang then
    if detectedLang ≠ s.sourceLang then
      let s1 := if detectedLang = s.targetLang then { s with targetLang := s.prevSourceLang } else s
      { s1 with sourceLang := detectedLang }
    else
      s
  else
    { s with
        error := some (.unsupportedSpan
          (unsupportedMessage (resolveDetectedName dn detectedLang))),
        translatedText := "" }

/-- `supportedLanguages[targetLang]` looked up with a runtime string key:
`none` models the `undefined` a non-key yields. -/
def supportedLanguagesLookup (code : String) : Option String :=
  (parseLang code).map languageName

/-- `translateAndDetect` as invoked by the untyped runtime (TS types are
erased): the same outcome fold as `translateAndDetect`, with the target
code and display-name arguments as the plain runtime values.  Neither
influences the modelled outcome. -/
def translateAndDetectJS (apiKeyPresent : Bool) (remote : RemoteBehavior)
    (_text _targetLang : String) (_langName : Option String) :
    Except ServiceError TranslationResponse :=
  if apiKeyPresent then
    match remote with
    | .emptyResponse => .ok ⟨"", ""⟩
    | .json r => .ok r
    | .malformed => .error .genericFailure
  else
    .error .apiKeyMissing

/-- Result of one orchestrator invocation over the untyped runtime state. -/
structure StepResultJS where
  state : RawState
  invokedService : Bool
deriving DecidableEq, Repr

/-- Variant 1 of `getTranslation` (part_001 lines 39-117) over the
untyped runtime state, identical to `getTranslation` except that the
supported-language guard carries the genuine JS `in` semantics
(`reconcileDetectionJS`). -/
def getTranslationJS (dn : String → Option String) (apiKeyPresent : Bool)
    (remote : RemoteBehavior) (text : String) (s : RawState) : StepResultJS :=
  if isBlank text then
    ⟨{ s with translatedText := "", error := none }, false⟩
  else
    let s1 : RawState := { s with isLoading := true, error := none }
    match translateAndDetectJS apiKeyPresent remote text s.targetLang
        (supportedLanguagesLookup s.targetLang) with
    | .ok result =>
      let s2 := { s1 with translatedText := result.translatedText }
      let s3 := reconcileDetectionJS dn result.detectedLanguage s2
      ⟨{ s3 with isLoading := false }, true⟩
    | .error .apiKeyMissing =>
      ⟨{ s1 with error := some (.apiKeyFragment apiKeyMissingMessage),
                 isLoading := false }, true⟩
    | .error .genericFailure =>
      ⟨{ s1 with error := some (.retryFragment translateFailMessage),
                 isLoading := false }, true⟩

/-- The untyped-runtime counterpart of `sampleState`: view-mount defaults
pt/en with some input typed. -/
def rawSampleState : RawState :=
  { sourceLang := "pt", targetLang := "en", inputText := "Olá",
    translatedText := "", isLoading := false, error := none,
    prevSourceLang := "pt" }

lemma parseLang_empty : parseLang "" = none := rfl

/-- C1: after a successful response whose detected code parses to a
supported language `l` different from the current source (with the
previous-source ref in sync, as the effect at part_001 lines 34-36
maintains), the new source is `l`, and the new target is the
previously-held source when `l` collides with the current target and is
unchanged otherwise. -/
theorem getTranslation_supported_detection (dn : String → Option String)
    (text t code : String) (l : Language) (s : AppState)
    (htext : isBlank text = false) (hparse : parseLang code = some l)
    (hne : l ≠ s.sourceLang) (hsync : s.prevSourceLang = s.sourceLang) :
    (getTranslation dn true (.json ⟨code, t⟩) text s).state.sourceLang = l ∧
    (getTranslation dn true (.json ⟨code, t⟩) text s).state.targetLang =
      (if l = s.targetLang then s.sourceLang else s.targetLang) := by
  have hcode : ¬ code = "" := by
    intro h
    rw [h, parseLang_empty] at hparse
    exact Option.noConfusion hparse
  by_cases htgt : l = s.targetLang
  · subst htgt
    simp [getTranslation, translateAndDetect, reconcileDetection, htext,
      hcode, hparse, hne, hsync]
  · simp [getTranslation, translateAndDetect, reconcileDetection, htext,
      hcode, hparse, hne, hsync, htgt]

/-- C1 witness: detecting en (the current target) from state
(pt, en) moves the source to en and the target to pt. -/
theorem getTranslation_supported_detection_witness :
    isBlank "Olá" = false ∧ parseLang "en" = some Language.en ∧
    Language.en ≠ sampleState.sourceLang ∧
    sampleState.prevSourceLang = sampleState.sourceLang ∧
    ((getTranslation (fun _ => none) true (.json ⟨"en", "Hello"⟩) "Olá"
        sampleState).state.sourceLang = Language.en ∧
     (getTranslation (fun _ => none) true (.json ⟨"en", "Hello"⟩) "Olá"
        sampleState).state.targetLang =
       (if Language.en = sampleState.targetLang then sampleState.sourceLang
        else sampleState.targetLang)) :=
  ⟨by decide, by decide, by decide, by decide,
   getTranslation_supported_detection (fun _ => none) "Olá" "Hello" "en"
     Language.en sampleState (by decide) (by decide) (by decide) (by decide)⟩

/-- C2: an auto-detection update (supported detected language different
from the current source, previous-source ref in sync) never leaves the
source and target equal. -/
theorem getTranslation_detection_invariant (dn : String → Option String)
    (text t code : String) (l : Language) (s : AppState)
    (htext : isBlank text = false) (hparse : parseLang code = some l)
    (hne : l ≠ s.sourceLang) (hsync : s.prevSourceLang = s.sourceLang) :
    (getTranslation dn true (.json ⟨code, t⟩) text s).state.sourceLang ≠
    (getTranslation dn true (.json ⟨code, t⟩) text s).state.targetLang := by
  obtain ⟨hsrc, htgt⟩ :=
    getTranslation_supported_detection dn text t code l s htext hparse hne hsync
  rw [hsrc, htgt]
  by_cases h : l = s.targetLang
  · subst h
    simp [hne]
  · simp [h]

/-- C2 witness: after detecting en from state (pt, en), source en and
target pt are distinct. -/
theorem getTranslation_detection_invariant_witness :
    isBlank "Olá" = false ∧ parseLang "en" = some Language.en ∧
    Language.en ≠ sampleState.sourceLang ∧
    sampleState.prevSourceLang = sampleState.sourceLang ∧
    (getTranslation (fun _ => none) true (.json ⟨"en", "Hello"⟩) "Olá"
       sampleState).state.sourceLang ≠
    (getTranslation (fun _ => none) true (.json ⟨"en", "Hello"⟩) "Olá"
       sampleState).state.targetLang :=
  ⟨by decide, by decide, by decide, by decide,
   getTranslation_detection_invariant (fun _ => none) "Olá" "Hello" "en"
     Language.en sampleState (by decide) (by decide) (by decide) (by decide)⟩

/-- C3: the failing input.  A successful response with detected code
"toString" — not a supported language, but an `Object.prototype`-inherited
property name, hence accepted by the JS `in` membership test — makes the
code take the supported branch: the translated text is kept, no error is
set, and the source slot becomes the non-`Language` string "toString",
while the claim (and the spec's fixed 12-code supported set, the evident
intent behind the `Language` type and the unsound `lang is Language`
guard) requires the text to be blanked, a translation-failure error
naming the code to be set, and the selections to stay unchanged. -/
theorem getTranslation_toString_bug :
    isSupportedJS "toString" = true ∧ parseLang "toString" = none ∧
    (getTranslationJS (fun _ => none) true (.json ⟨"toString", "Hello"⟩) "Olá"
        rawSampleState).state.translatedText = "Hello" ∧
    (getTranslationJS (fun _ => none) true (.json ⟨"toString", "Hello"⟩) "Olá"
        rawSampleState).state.error = none ∧
    (getTranslationJS (fun _ => none) true (.json ⟨"toString", "Hello"⟩) "Olá"
        rawSampleState).state.sourceLang = "toString" := by
  decide

/-- C4: submitting empty or whitespace-only text performs no remote
call, blanks the translated text, clears the error, and (since the
loading flag was false before the invocation, as it is between cycles)
leaves the loading flag false. -/
theorem getTranslation_blank_text (dn : String → Option String)
    (apiKeyPresent : Bool) (remote : RemoteBehavior) (text : String)
    (s : AppState) (htrim : isBlank text = true)
    (hload : s.isLoading = false) :
    (getTranslation dn apiKeyPresent remote text s).invokedService = false ∧
    (getTranslation dn apiKeyPresent remote text s).state.translatedText = "" ∧
    (getTranslation dn apiKeyPresent remote text s).state.error = none ∧
    (getTranslation dn apiKeyPresent remote text s).state.isLoading = false := by
  simp [getTranslation, htrim, hload]

/-- C4 witness: submitting "  " skips the service and clears output and
error, with the loading flag still false. -/
theorem getTranslation_blank_text_witness :
    isBlank "  " = true ∧ sampleState.isLoading = false ∧
    ((getTranslation (fun _ => none) true .malformed "  "
        sampleState).invokedService = false ∧
     (getTranslation (fun _ => none) true .malformed "  "
        sampleState).state.translatedText = "" ∧
     (getTranslation (fun _ => none) true .malformed "  "
        sampleState).state.error = none ∧
     (getTranslation (fun _ => none) true .malformed "  "
        sampleState).state.isLoading = false) :=
  ⟨by decide, by decide,
   getTranslation_blank_text (fun _ => none) true .malformed "  "
     sampleState (by decide) (by decide)⟩

/-- C6: the manual swap exchanges source with target and input with
translated text atomically; in particular, swapping
(pt, en, "Olá", "Hello") yields (en, pt, "Hello", "Olá"). -/
theorem handleSwapLanguages_exchanges :
    (∀ s : AppState,
      (handleSwapLanguages s).sourceLang = s.targetLang ∧
      (handleSwapLanguages s).targetLang = s.sourceLang ∧
      (handleSwapLanguages s).inputText = s.translatedText ∧
      (handleSwapLanguages s).translatedText = s.inputText) ∧
    handleSwapLanguages
        ⟨.pt, .en, "Olá", "Hello", false, none, .pt⟩ =
      ⟨.en, .pt, "Hello", "Olá", false, none, .pt⟩ :=
  ⟨fun _ => ⟨rfl, rfl, rfl, rfl⟩, rfl⟩

/-- C7: submitting non-empty text with no API credential configured
raises the missing-credential error (kind api-key), ends with the loading
flag false, and leaves the translated text unchanged. -/
theorem getTranslation_missing_credential (dn : String → Option String)
    (remote : RemoteBehavior) (text : String) (s : AppState)
    (htext : isBlank text = false) :
    (getTranslation dn false remote text s).state.error =
      some (.apiKeyFragment apiKeyMissingMessage) ∧
    ((getTranslation dn false remote text s).state.error.map errNodeKind =
      some .apiKey) ∧
    (getTranslation dn false remote text s).state.isLoading = false ∧
    (getTranslation dn false remote text s).state.translatedText =
      s.translatedText := by
  simp [getTranslation, translateAndDetect, htext, errNodeKind]

/-- C7 witness: with no credential, submitting "Olá" yields the
missing-credential error, loading false, translated text untouched. -/
theorem getTranslation_missing_credential_witness :
    isBlank "Olá" = false ∧
    ((getTranslation (fun _ => none) false (.json ⟨"en", "Hello"⟩) "Olá"
        sampleState).state.error =
      some (.apiKeyFragment apiKeyMissingMessage) ∧
     ((getTranslation (fun _ => none) false (.json ⟨"en", "Hello"⟩) "Olá"
        sampleState).state.error.map errNodeKind = some .apiKey) ∧
     (getTranslation (fun _ => none) false (.json ⟨"en", "Hello"⟩) "Olá"
        sampleState).state.isLoading = false ∧
     (getTranslation (fun _ => none) false (.json ⟨"en", "Hello"⟩) "Olá"
        sampleState).state.translatedText = sampleState.translatedText) :=
  ⟨by decide,
   getTranslation_missing_credential (fun _ => none)
     (.json ⟨"en", "Hello"⟩) "Olá" sampleState (by decide)⟩

/-- C8: a successful response with an empty detected code performs no
reconciliation — source and target unchanged, no error set — while the
translated text from the response is stored. -/
theorem getTranslation_empty_detection (dn : String → Option String)
    (text t : String) (s : AppState) (htext : isBlank text = false) :
    (getTranslation dn true (.json ⟨"", t⟩) text s).state.sourceLang =
      s.sourceLang ∧
    (getTranslation dn true (.json ⟨"", t⟩) text s).state.targetLang =
      s.targetLang ∧
    (getTranslation dn true (.json ⟨"", t⟩) text s).state.error = none ∧
    (getTranslation dn true (.json ⟨"", t⟩) text s).state.translatedText = t := by
  simp [getTranslation, translateAndDetect, reconcileDetection, htext]

/-- C8 witness: an empty detected code leaves pt/en selected with no
error. -/
theorem getTranslation_empty_detection_witness :
    isBlank "Olá" = false ∧
    ((getTranslation (fun _ => none) true (.json ⟨"", ""⟩) "Olá"
        sampleState).state.sourceLang = sampleState.sourceLang ∧
     (getTranslation (fun _ => none) true (.json ⟨"", ""⟩) "Olá"
        sampleState).state.targetLang = sampleState.targetLang ∧
     (getTranslation (fun _ => none) true (.json ⟨"", ""⟩) "Olá"
        sampleState).state.error = none ∧
     (getTranslation (fun _ => none) true (.json ⟨"", ""⟩) "Olá"
        sampleState).state.translatedText = "") :=
  ⟨by decide,
   getTranslation_empty_detection (fun _ => none) "Olá" "" sampleState
     (by decide)⟩

/-- C10: both variants of the manual swap are involutions — applying the
swap twice restores the original state. -/
theorem handleSwapLanguages_involutive :
    (∀ s : AppState, handleSwapLanguages (handleSwapLanguages s) = s) ∧
    (∀ s : AppState2, handleSwapLanguages2 (handleSwapLanguages2 s) = s) :=
  ⟨fun _ => rfl, fun _ => rfl⟩

lemma debounceRun_of_chain (l : List (Nat × String)) :
    ∀ (t : Nat) (x : String), chainFrom t l = true →
      debounceRun (some ⟨t + 800, x⟩) l =
        [((l.getLast?.getD (t, x)).1 + 800, (l.getLast?.getD (t, x)).2)] := by
  induction l with
  | nil =>
    intro t x _
    simp [debounceRun]
  | cons hd tl ih =>
    intro t x hchain
    obtain ⟨t2, x2⟩ := hd
    simp only [chainFrom, Bool.and_eq_true, decide_eq_true_eq] at hchain
    obtain ⟨⟨h1, h2⟩, h3⟩ := hchain
    have hnot : ¬ (t + 800 ≤ t2) := by omega
    rw [debounceRun]
    simp only [hnot, if_false, armDebounce]
    rw [ih t2 x2 h3]
    cases tl with
    | nil => simp
    | cons a b =>
      cases hgl : (a :: b).getLast? with
      | none =>
        exact absurd hgl (by simp)
      | some p => simp [hgl]

/-- C5: for a burst of edits each arriving less than 800ms after the
previous one, the debounce mechanism produces exactly one translation
invocation, carrying the final text value (the earlier timers having been
cancelled by re-arming). -/
theorem debounce_coalesces (t0 : Nat) (x0 : String)
    (rest : List (Nat × String)) (hchain : chainFrom t0 rest = true) :
    debounceFirings ((t0, x0) :: rest) =
      [((rest.getLast?.getD (t0, x0)).1 + 800,
        (rest.getLast?.getD (t0, x0)).2)] := by
  rw [debounceFirings, debounceRun]
  exact debounceRun_of_chain rest t0 x0 hchain

/-- C5 witness: three edits at 0ms, 500ms and 900ms (gaps 500 and 400)
yield the single invocation (1700, "abc") with the final text. -/
theorem debounce_coalesces_witness :
    chainFrom 0 [(500, "ab"), (900, "abc")] = true ∧
    debounceFirings [(0, "a"), (500, "ab"), (900, "abc")] =
      [(([(500, "ab"), (900, "abc")].getLast?.getD ((0 : Nat), "a")).1 + 800,
        ([(500, "ab"), (900, "abc")].getLast?.getD ((0 : Nat), "a")).2)] :=
  ⟨by decide, debounce_coalesces 0 "a" [(500, "ab"), (900, "abc")] (by decide)⟩

lemma reconcile_abs_commutes (dn : String → Option String)
    (detectedLang : String) (s : AppState) :
    reconcileDetection2 dn detectedLang (absState s) =
      absState (reconcileDetection dn detectedLang s) := by
  by_cases hcode : detectedLang = ""
  · simp [reconcileDetection, reconcileDetection2, hcode]
  · cases hp : parseLang detectedLang with
    | none =>
      simp [reconcileDetection, reconcileDetection2, hcode, hp, absState,
        errNodeMsg, errNodeKind]
    | some l =>
      by_cases hsrc : l = s.sourceLang
      · simp [reconcileDetection, reconcileDetection2, hcode, hp, absState, hsrc]
      · by_cases htgt : l = s.targetLang
        · subst htgt
          simp [reconcileDetection, reconcileDetection2, hcode, hp, absState,
            hsrc]
        · simp [reconcileDetection, reconcileDetection2, hcode, hp, absState,
            hsrc, htgt]

/-- C9: the two error-handling variants of `getTranslation` are
behaviorally equivalent — for every prior state, input text, credential
presence and remote behaviour, variant 2 run on the abstracted state
(error node projected to its message and kind) produces exactly the
abstraction of variant 1's result: the same source, target, input text,
translated text, loading flag, service invocation, and the same error
message and classification. -/
theorem getTranslation_variants_equivalent (dn : String → Option String)
    (apiKeyPresent : Bool) (remote : RemoteBehavior) (text : String)
    (s : AppState) :
    getTranslation2 dn apiKeyPresent remote text (absState s) =
      absStep (getTranslation dn apiKeyPresent remote text s) := by
  by_cases htrim : isBlank text = true
  · simp [getTranslation, getTranslation2, absStep, absState, htrim]
  · cases apiKeyPresent with
    | false =>
      simp [getTranslation, getTranslation2, absStep, absState, htrim,
        translateAndDetect, errNodeMsg, errNodeKind]
    | true =>
      cases remote with
      | malformed =>
        simp [getTranslation, getTranslation2, absStep, absState, htrim,
          translateAndDetect, errNodeMsg, errNodeKind]
      | emptyResponse =>
        simp [getTranslation, getTranslation2, absStep, translateAndDetect,
          htrim, reconcileDetection, reconcileDetection2, absState]
      | json r =>
        obtain ⟨code, t⟩ := r
        have htrim' : isBlank text = false := by
          cases hb : isBlank text
          · rfl
          · exact absurd hb htrim
        have h := reconcile_abs_commutes dn code
          { s with isLoading := true, error := none, translatedText := t }
        simp only [getTranslation, getTranslation2, htrim', Bool.false_eq_true,
          if_false]
        exact congrArg
          (fun st => StepResult2.mk { st with isLoading := false } true) h

end Tradutor
